import Mathlib

/-!
Verification of the cloudsql-proxy health-check subsystem.

The repository contains three variants of the health-check code:
* `src/healthcheck/healthcheck.go` — embedded in namespace `HC2021`;
* `src/unnamed/part_000` (package healthcheck, 2021 copyright, type `HC`
  with `NotifyStarted`, `isLive`, `isReady`) — embedded in namespace
  `Part000`;
* `src/unnamed/part_001` (package healthcheck, 2015 copyright, type
  `HealthCheck` with `NotifyReady`, `livenessTest`, `readinessTest`
  that increments and then decrements the shared connection counter) —
  embedded in namespace `Part001`.

The external connection source is `proxy.Client`, of which the health
code reads the two fields `ConnectionsCounter` and `MaxConnections`
(both Go `uint64`, modelled as `Nat`; modular reduction by `2 ^ 64` is
made explicit exactly where the Go code can overflow, namely the
`atomic.AddUint64` calls in `Part001.readinessTest`).

HTTP transport, mutexes and logging are concurrency/IO plumbing with no
effect on the computed booleans: the mutexes only serialise the accesses
that are modelled here as atomic state reads and writes.
-/

namespace CloudSQLProxy

/-- The uint64 modulus: Go `uint64` arithmetic wraps at `2 ^ 64`. -/
def U64_MOD : Nat := 2 ^ 64

/-- The fields of `proxy.Client` read by the health-check code:
`ConnectionsCounter uint64` (current connection count, atomically
updated) and `MaxConnections uint64` (configured maximum, zero meaning
no limit). -/
structure Client where
  ConnectionsCounter : Nat
  MaxConnections : Nat
  deriving DecidableEq, Repr

namespace HC2021

/-- `HC` from src/healthcheck/healthcheck.go: the fields `live`, `ready`
and `started` (the `srv` pointer is HTTP transport and carries no health
state). -/
structure HC where
  live : Bool
  ready : Bool
  started : Bool
  deriving DecidableEq, Repr

/-- `NotifyReadyForConnections` from src/healthcheck/healthcheck.go: a
method on a possibly-nil `*HC` receiver; on a nil receiver it does
nothing, otherwise it sets `started` to true under `startupMutex`. -/
def NotifyReadyForConnections : Option HC → Option HC
  | none => none
  | some hc => some { hc with started := true }

/-- `livenessTest` from src/healthcheck/healthcheck.go: returns true. -/
def livenessTest : Bool := true

/-- `readinessTest` from src/healthcheck/healthcheck.go: false when
`started` has not been set; false when `MaxConnections > 0` and the
atomically loaded `ConnectionsCounter` is `>= MaxConnections`; true
otherwise. It writes neither the client nor the tracker. -/
def readinessTest (proxyClient : Client) (hc : HC) : Bool :=
  if !hc.started then
    false
  else if 0 < proxyClient.MaxConnections ∧
      proxyClient.MaxConnections ≤ proxyClient.ConnectionsCounter then
    false
  else
    true

end HC2021

namespace Part000

/-- `HC` from src/unnamed/part_000: the `started` flag (guarded by
`startedL`) and the listening `port`; the `srv` pointer is HTTP
transport and carries no health state. -/
structure HC where
  started : Bool
  port : String
  deriving DecidableEq, Repr

/-- `NotifyStarted` from src/unnamed/part_000: sets `started` to true
under the `startedL` mutex. -/
def NotifyStarted (hc : HC) : HC :=
  { hc with started := true }

/-- `isLive` from src/unnamed/part_000: returns true. -/
def isLive : Bool := true

/-- `isReady` from src/unnamed/part_000, in state-transformer form so
that its (absent) effects on the client and the tracker are explicit:
it reads `started` under the mutex, then possibly the client fields,
and performs no write, so every branch returns the input states
unchanged alongside the boolean. -/
def isReady (c : Client) (hc : HC) : Bool × Client × HC :=
  let started := hc.started
  if !started then
    (false, c, hc)
  else if 0 < c.MaxConnections ∧
      c.MaxConnections ≤ c.ConnectionsCounter then
    (false, c, hc)
  else
    (true, c, hc)

/-- The operations a caller can interleave on a part_000 tracker. -/
inductive Op where
  | notifyStarted
  | isReadyQ
  | isLiveQ
  deriving DecidableEq, Repr

/-- Effect of one operation on the tracker state (the client is read
but never written by any of the three, and `isLive` reads nothing). -/
def step (c : Client) (hc : HC) : Op → HC
  | .notifyStarted => NotifyStarted hc
  | .isReadyQ => (isReady c hc).2.2
  | .isLiveQ => hc

/-- Run a sequence of operations from a given tracker state. -/
def run (c : Client) (hc : HC) : List Op → HC
  | [] => hc
  | op :: ops => run c (step c hc op) ops

end Part000

namespace Part001

/-- `HealthCheck` from src/unnamed/part_001: `live`, `ready` and
`started` booleans. -/
structure HealthCheck where
  live : Bool
  ready : Bool
  started : Bool
  deriving DecidableEq, Repr

/-- `NotifyReady` from src/unnamed/part_001: sets `started` to true. -/
def NotifyReady (hc : HealthCheck) : HealthCheck :=
  { hc with started := true }

/-- `livenessTest` from src/unnamed/part_001: returns true. -/
def livenessTest : Bool := true

/-- `readinessTest` from src/unnamed/part_001, in state-transformer
form because it mutates the shared counter: after the `started` check
it executes `active := atomic.AddUint64(&ConnectionsCounter, 1)` (a
uint64 add, wrapping at `2 ^ 64`), defers
`atomic.AddUint64(&ConnectionsCounter, ^uint64(0))` (adding
`2 ^ 64 - 1`, i.e. a wrapping decrement) to run on return, and answers
false when `MaxConnections > 0 && active > MaxConnections`. The
returned `Client` is the counter state after the deferred decrement. -/
def readinessTest (proxyClient : Client) (hc : HealthCheck) :
    Bool × Client :=
  if !hc.started then
    (false, proxyClient)
  else
    let active := (proxyClient.ConnectionsCounter + 1) % U64_MOD
    let afterDefer : Client :=
      { proxyClient with
        ConnectionsCounter := (active + (U64_MOD - 1)) % U64_MOD }
    (if 0 < proxyClient.MaxConnections ∧
        proxyClient.MaxConnections < active then false else true,
      afterDefer)

end Part001

/-! ## Theorems -/

/-- C1: for every tracker state, the readiness query (part_000 `isReady`
and src/healthcheck/healthcheck.go `readinessTest`) returns true if and
only if `started` is true and either the configured maximum is zero or
the connection count is strictly below the maximum. -/
theorem isReady_iff_started_and_below_limit
    (c : Client) (hc0 : Part000.HC) (hc1 : HC2021.HC) :
    ((Part000.isReady c hc0).1 = true ↔
      hc0.started = true ∧
        (c.MaxConnections = 0 ∨
          c.ConnectionsCounter < c.MaxConnections)) ∧
    (HC2021.readinessTest c hc1 = true ↔
      hc1.started = true ∧
        (c.MaxConnections = 0 ∨
          c.ConnectionsCounter < c.MaxConnections)) := by
  constructor
  · unfold Part000.isReady
    rcases hc0 with ⟨s, p⟩
    cases s
    · simp
    · by_cases h : 0 < c.MaxConnections ∧
        c.MaxConnections ≤ c.ConnectionsCounter
      · simp [h]
        omega
      · simp [h]
        omega
  · unfold HC2021.readinessTest
    rcases hc1 with ⟨l, r, s⟩
    cases s
    · simp
    · by_cases h : 0 < c.MaxConnections ∧
        c.MaxConnections ≤ c.ConnectionsCounter
      · simp [h]
        omega
      · simp [h]
        omega

/-- C2 counterexample: for the cited part_001 `readinessTest`, a
started tracker at exactly its positive maximum can report ready: at
count = maximum = `2 ^ 64 - 1` the uint64 increment wraps `active` to
0, `active > max` fails, and the query answers true — so "count equal
to the maximum makes readiness false" does not hold universally for
the cited readiness operations. -/
theorem readinessTest_ready_at_capacity :
    0 < U64_MOD - 1 ∧
    (Part001.readinessTest ⟨U64_MOD - 1, U64_MOD - 1⟩
      ⟨true, false, true⟩).1 = true := by
  constructor
  · norm_num [U64_MOD]
  · unfold Part001.readinessTest
    norm_num [U64_MOD]

/-- C2 amended: for a started tracker with a positive maximum `m`,
part_000's `isReady` is false exactly when the count is `>= m` (at
capacity counts as not ready), and part_001's `readinessTest` decides
the same way for every count whose uint64 increment does not wrap
(count `+ 1 < 2 ^ 64`); in particular with maximum 10, count 9 is
ready and counts 10 and 11 are not, in both variants. At
count = maximum = `2 ^ 64 - 1` the wrapped increment makes part_001
report ready at capacity. -/
theorem at_capacity_not_ready
    (m cnt : Nat) (hc0 : Part000.HC) (hc1 : Part001.HealthCheck)
    (hs0 : hc0.started = true) (hs1 : hc1.started = true)
    (hm : 0 < m) :
    ((Part000.isReady ⟨cnt, m⟩ hc0).1 = false ↔ m ≤ cnt) ∧
    (cnt + 1 < U64_MOD →
      ((Part001.readinessTest ⟨cnt, m⟩ hc1).1 = false ↔ m ≤ cnt)) ∧
    ((Part000.isReady ⟨9, 10⟩ hc0).1 = true ∧
      (Part000.isReady ⟨10, 10⟩ hc0).1 = false ∧
      (Part000.isReady ⟨11, 10⟩ hc0).1 = false) ∧
    ((Part001.readinessTest ⟨9, 10⟩ hc1).1 = true ∧
      (Part001.readinessTest ⟨10, 10⟩ hc1).1 = false ∧
      (Part001.readinessTest ⟨11, 10⟩ hc1).1 = false) := by
  refine ⟨?_, ?_, ?_, ?_⟩
  · unfold Part000.isReady
    simp only [hs0, Bool.not_true, Bool.false_eq_true, if_false]
    by_cases h : 0 < m ∧ m ≤ cnt
    all_goals simp [h]
    all_goals omega
  · intro h2
    have hM : (cnt + 1) % U64_MOD = cnt + 1 := Nat.mod_eq_of_lt h2
    unfold Part001.readinessTest
    simp only [hs1, Bool.not_true, Bool.false_eq_true, if_false]
    simp only [hM]
    by_cases h : 0 < m ∧ m < cnt + 1
    all_goals simp [h]
    all_goals omega
  · norm_num [Part000.isReady, hs0]
  · norm_num [Part001.readinessTest, hs1, U64_MOD]

/-- Witness for C2 amended at maximum 10, count 10 on concrete started
trackers. -/
theorem at_capacity_not_ready_witness :
    (⟨true, "9090"⟩ : Part000.HC).started = true ∧
    (⟨true, false, true⟩ : Part001.HealthCheck).started = true ∧
    (0 < 10 ∧
      ((Part000.isReady ⟨10, 10⟩ ⟨true, "9090"⟩).1 = false ↔
        10 ≤ 10)) :=
  ⟨rfl, rfl, by decide,
    (at_capacity_not_ready 10 10 ⟨true, "9090"⟩ ⟨true, false, true⟩
      rfl rfl (by decide)).1⟩

/-- Helper: part_000's `isReady` returns its input client and tracker
states unchanged on every branch. -/
theorem isReady_frame (c : Client) (hc : Part000.HC) :
    (Part000.isReady c hc).2.1 = c ∧ (Part000.isReady c hc).2.2 = hc := by
  unfold Part000.isReady
  by_cases h1 : (!hc.started) = true
  · simp [h1]
  · by_cases h2 : 0 < c.MaxConnections ∧
      c.MaxConnections ≤ c.ConnectionsCounter
    · simp [h1, h2]
    · simp [h1, h2]

/-- Helper: part_001's `readinessTest` restores the connection counter
to its pre-call value (uint64 increment followed by the deferred
wrapping decrement), for any in-range counter. -/
theorem readinessTest_restores_counter (c : Client)
    (hc : Part001.HealthCheck)
    (hcnt : c.ConnectionsCounter < U64_MOD) :
    (Part001.readinessTest c hc).2.ConnectionsCounter =
        c.ConnectionsCounter ∧
      (Part001.readinessTest c hc).2.MaxConnections =
        c.MaxConnections := by
  rcases c with ⟨cnt, m⟩
  simp only [U64_MOD] at hcnt
  unfold Part001.readinessTest
  by_cases h1 : (!hc.started) = true
  · simp [h1]
  · simp only [h1, if_false, Bool.false_eq_true]
    simp only [U64_MOD]
    refine ⟨?_, ?_⟩
    · omega
    · trivial

/-- C3: no readiness or liveness query mutates the external connection
source: part_000's `isReady` returns the client unchanged, part_001's
`readinessTest` returns the counter and maximum to their pre-call
values via its deferred decrement, and the liveness queries take no
reference to the client at all. -/
theorem queries_preserve_connection_source
    (c : Client) (hc0 : Part000.HC) (hc1 : Part001.HealthCheck)
    (hcnt : c.ConnectionsCounter < U64_MOD) :
    (Part000.isReady c hc0).2.1 = c ∧
    ((Part001.readinessTest c hc1).2.ConnectionsCounter =
        c.ConnectionsCounter ∧
      (Part001.readinessTest c hc1).2.MaxConnections =
        c.MaxConnections) :=
  ⟨(isReady_frame c hc0).1, readinessTest_restores_counter c hc1 hcnt⟩

/-- Witness for C3 at a concrete client and concrete trackers. -/
theorem queries_preserve_connection_source_witness :
    (⟨5, 10⟩ : Client).ConnectionsCounter < U64_MOD ∧
    (Part000.isReady ⟨5, 10⟩ ⟨true, "9090"⟩).2.1 = ⟨5, 10⟩ ∧
    ((Part001.readinessTest ⟨5, 10⟩
        ⟨true, false, true⟩).2.ConnectionsCounter = 5 ∧
      (Part001.readinessTest ⟨5, 10⟩
        ⟨true, false, true⟩).2.MaxConnections = 10) :=
  ⟨by norm_num [U64_MOD],
    queries_preserve_connection_source ⟨5, 10⟩ ⟨true, "9090"⟩
      ⟨true, false, true⟩ (by norm_num [U64_MOD])⟩

/-- Helper: one step of the part_000 machine never clears the
`started` flag. -/
theorem step_preserves_started (c : Client) (hc : Part000.HC)
    (op : Part000.Op) (h : hc.started = true) :
    (Part000.step c hc op).started = true := by
  cases op with
  | notifyStarted => rfl
  | isReadyQ => rw [Part000.step, (isReady_frame c hc).2]; exact h
  | isLiveQ => exact h

/-- C4: in every state reachable by any sequence of `NotifyStarted`,
`isReady` and `isLive` calls, once `started` is true no subsequent
operation sets it back to false. -/
theorem started_never_reverts (c : Client) (hc : Part000.HC)
    (ops : List Part000.Op) (h : hc.started = true) :
    (Part000.run c hc ops).started = true := by
  induction ops generalizing hc with
  | nil => exact h
  | cons op ops ih =>
    exact ih (Part000.step c hc op) (step_preserves_started c hc op h)

/-- Witness for C4: a started tracker stays started across a concrete
mixed operation sequence. -/
theorem started_never_reverts_witness :
    (⟨true, "9090"⟩ : Part000.HC).started = true ∧
    (Part000.run ⟨0, 0⟩ ⟨true, "9090"⟩
      [.isReadyQ, .isLiveQ, .notifyStarted, .isReadyQ]).started = true :=
  ⟨rfl, started_never_reverts ⟨0, 0⟩ ⟨true, "9090"⟩
    [.isReadyQ, .isLiveQ, .notifyStarted, .isReadyQ] rfl⟩

/-- Helper: `isReady` on a tracker whose `started` flag is false
returns false. -/
theorem isReady_of_not_started (c : Client) (hc : Part000.HC)
    (h : hc.started = false) : (Part000.isReady c hc).1 = false := by
  unfold Part000.isReady
  simp [h]

/-- Helper: one step of the part_000 machine other than
`notifyStarted` never sets the `started` flag. -/
theorem step_preserves_not_started (c : Client) (hc : Part000.HC)
    (op : Part000.Op) (hop : op ≠ Part000.Op.notifyStarted)
    (h : hc.started = false) :
    (Part000.step c hc op).started = false := by
  cases op with
  | notifyStarted => exact absurd rfl hop
  | isReadyQ => rw [Part000.step, (isReady_frame c hc).2]; exact h
  | isLiveQ => exact h

/-- Helper: running any sequence of operations not containing
`notifyStarted` keeps the `started` flag false. -/
theorem run_no_notify_not_started (c : Client) (hc : Part000.HC)
    (ops : List Part000.Op)
    (hops : ∀ op ∈ ops, op ≠ Part000.Op.notifyStarted)
    (h : hc.started = false) :
    (Part000.run c hc ops).started = false := by
  induction ops generalizing hc with
  | nil => exact h
  | cons op ops ih =>
    exact ih (Part000.step c hc op)
      (fun o ho => hops o (List.mem_cons_of_mem op ho))
      (step_preserves_not_started c hc op
        (hops op (List.mem_cons_self op ops)) h)

/-- C5: before any call to `NotifyStarted`, readiness is false for
every connection count and maximum: `readinessTest`
(src/healthcheck/healthcheck.go) is false on any not-started tracker,
and part_000's `isReady` is false in every state reached from the
initial state (started = false) by operations other than
`NotifyStarted`. -/
theorem not_started_not_ready
    (cq c : Client) (hc1 : HC2021.HC) (p : String)
    (ops : List Part000.Op)
    (h1 : hc1.started = false)
    (hops : ∀ op ∈ ops, op ≠ Part000.Op.notifyStarted) :
    HC2021.readinessTest cq hc1 = false ∧
    (Part000.isReady cq (Part000.run c ⟨false, p⟩ ops)).1 = false := by
  constructor
  · unfold HC2021.readinessTest
    simp [h1]
  · exact isReady_of_not_started cq _
      (run_no_notify_not_started c ⟨false, p⟩ ops hops rfl)

/-- Witness for C5 at maximum 0, count 0 (and a query sequence of pure
probes). -/
theorem not_started_not_ready_witness :
    (⟨true, false, false⟩ : HC2021.HC).started = false ∧
    (∀ op ∈ ([.isReadyQ, .isLiveQ] : List Part000.Op),
      op ≠ Part000.Op.notifyStarted) ∧
    (HC2021.readinessTest ⟨0, 0⟩ ⟨true, false, false⟩ = false ∧
      (Part000.isReady ⟨0, 0⟩
        (Part000.run ⟨0, 0⟩ ⟨false, "9090"⟩
          [.isReadyQ, .isLiveQ])).1 = false) :=
  ⟨rfl, by decide,
    not_started_not_ready ⟨0, 0⟩ ⟨0, 0⟩ ⟨true, false, false⟩ "9090"
      [.isReadyQ, .isLiveQ] rfl (by decide)⟩

/-- C6: `NotifyStarted` (part_000) and `NotifyReadyForConnections`
(src/healthcheck/healthcheck.go) are idempotent: iterating either
`n >= 1` times from any state yields the same state as one call. -/
theorem notifyStarted_idempotent
    (hc : Part000.HC) (ohc : Option HC2021.HC) (n : Nat) (h : 0 < n) :
    Part000.NotifyStarted^[n] hc = Part000.NotifyStarted hc ∧
    HC2021.NotifyReadyForConnections^[n] ohc =
      HC2021.NotifyReadyForConnections ohc := by
  obtain ⟨k, rfl⟩ : ∃ k, n = k + 1 := ⟨n - 1, by omega⟩
  constructor
  · rw [Function.iterate_succ_apply]
    exact Function.iterate_fixed rfl k
  · rw [Function.iterate_succ_apply]
    apply Function.iterate_fixed
    cases ohc <;> rfl

/-- Witness for C6 at n = 2 on concrete states. -/
theorem notifyStarted_idempotent_witness :
    0 < 2 ∧
    (Part000.NotifyStarted^[2] ⟨false, "9090"⟩ =
        Part000.NotifyStarted ⟨false, "9090"⟩ ∧
      HC2021.NotifyReadyForConnections^[2]
          (some ⟨true, false, false⟩) =
        HC2021.NotifyReadyForConnections (some ⟨true, false, false⟩)) :=
  ⟨by decide,
    notifyStarted_idempotent ⟨false, "9090"⟩ (some ⟨true, false, false⟩)
      2 (by decide)⟩

/-- C8: the queries mutate no tracker-owned state: part_000's `isReady`
returns the tracker unchanged, and in the operation machine both query
steps leave the state exactly equal to the input state (`started` is
written only by the `notifyStarted` step). -/
theorem queries_preserve_tracker_state (c : Client) (hc : Part000.HC) :
    (Part000.isReady c hc).2.2 = hc ∧
    Part000.step c hc .isReadyQ = hc ∧
    Part000.step c hc .isLiveQ = hc :=
  ⟨(isReady_frame c hc).2, (isReady_frame c hc).2, rfl⟩

/-- C9 counterexample: at connection count `2 ^ 64 - 1` (uint64
maximum) with limit 1, on started trackers, part_001's `readinessTest`
answers true (the increment wraps to 0, so `active > max` fails) while
part_000's `isReady` answers false (`count >= max` holds), so the two
variants do not agree for every uint64 count. -/
theorem readiness_variants_differ_at_wraparound :
    (Part001.readinessTest ⟨U64_MOD - 1, 1⟩ ⟨true, false, true⟩).1 =
        true ∧
      (Part000.isReady ⟨U64_MOD - 1, 1⟩ ⟨true, "9090"⟩).1 = false := by
  constructor
  · unfold Part001.readinessTest
    norm_num [U64_MOD]
  · unfold Part000.isReady
    norm_num [U64_MOD]

/-- C9 amended: whenever the counter increment does not wrap (count
`+ 1 < 2 ^ 64`), part_001's `readinessTest` computes the same boolean
as part_000's `isReady` on started trackers; and for every in-range
count (`< 2 ^ 64`, wrapping included) it leaves the counter equal to
its pre-call value. -/
theorem readiness_variants_agree_below_wraparound
    (c : Client) (hc1 : Part001.HealthCheck) (hc0 : Part000.HC)
    (hs1 : hc1.started = true) (hs0 : hc0.started = true)
    (hcnt : c.ConnectionsCounter + 1 < U64_MOD) :
    (Part001.readinessTest c hc1).1 = (Part000.isReady c hc0).1 ∧
    (Part001.readinessTest c hc1).2.ConnectionsCounter =
      c.ConnectionsCounter := by
  refine ⟨?_, (readinessTest_restores_counter c hc1 (by omega)).1⟩
  have hM : (c.ConnectionsCounter + 1) % U64_MOD =
      c.ConnectionsCounter + 1 := Nat.mod_eq_of_lt hcnt
  unfold Part001.readinessTest Part000.isReady
  simp only [hs1, hs0, Bool.not_true, Bool.false_eq_true, if_false, hM]
  by_cases h : 0 < c.MaxConnections ∧
      c.MaxConnections ≤ c.ConnectionsCounter
  · rw [if_pos (by omega), if_pos h]
  · rw [if_neg (by omega), if_neg h]

/-- Witness for C9 amended at count 9, maximum 10 on concrete started
trackers. -/
theorem readiness_variants_agree_below_wraparound_witness :
    (⟨true, false, true⟩ : Part001.HealthCheck).started = true ∧
    (⟨true, "9090"⟩ : Part000.HC).started = true ∧
    (9 : Nat) + 1 < U64_MOD ∧
    ((Part001.readinessTest ⟨9, 10⟩ ⟨true, false, true⟩).1 =
        (Part000.isReady ⟨9, 10⟩ ⟨true, "9090"⟩).1 ∧
      (Part001.readinessTest ⟨9, 10⟩
        ⟨true, false, true⟩).2.ConnectionsCounter = 9) :=
  ⟨rfl, rfl, by norm_num [U64_MOD],
    readiness_variants_agree_below_wraparound ⟨9, 10⟩
      ⟨true, false, true⟩ ⟨true, "9090"⟩ rfl rfl
      (by norm_num [U64_MOD])⟩

/-- C10: `NotifyReadyForConnections` on a nil receiver is a safe no-op
(the nil check makes it total and it performs no state change), while
on a non-nil receiver it sets `started`. -/
theorem notifyReadyForConnections_nil_noop :
    HC2021.NotifyReadyForConnections none = none ∧
    ∀ hc : HC2021.HC,
      HC2021.NotifyReadyForConnections (some hc) =
        some { hc with started := true } :=
  ⟨rfl, fun _ => rfl⟩

/-- C7: the liveness query returns true unconditionally in all three
variants: `isLive` (part_000), `livenessTest`
(src/healthcheck/healthcheck.go) and `livenessTest` (part_001) take no
state at all and return true. -/
theorem isLive_always_true :
    Part000.isLive = true ∧ HC2021.livenessTest = true ∧
      Part001.livenessTest = true :=
  ⟨rfl, rfl, rfl⟩

end CloudSQLProxy
